import Mathlib

/-!
Verification of the gw-broadcaster relay/admission server.

The server source (a single Node/TypeScript file) is shallowly embedded
here: its global `Map` objects become association lists, epoch-millisecond
times become `Int`, JS numbers that can be non-finite become an explicit
`JSNum` type, and the external WHATWG `URL` constructor is abstracted as a
parameter `parse : String -> Option URLParts` (the code only observes
whether construction throws and, on success, the `protocol` and `hostname`
components).  Every definition mirrors the corresponding source function
statement by statement.
-/

namespace GWB

/-! JS `Map` model: association lists with first-match lookup.  `mapSet`
replaces an existing binding in place (as `Map.set` does), `mapDelete`
removes the binding (stores built through this API never hold a key
twice). -/

def mapGet {α β : Type} [DecidableEq α] : List (α × β) → α → Option β
  | [], _ => none
  | (k, v) :: rest, key => if k = key then some v else mapGet rest key

def mapSet {α β : Type} [DecidableEq α] : List (α × β) → α → β → List (α × β)
  | [], key, val => [(key, val)]
  | (k, v) :: rest, key, val =>
      if k = key then (key, val) :: rest else (k, v) :: mapSet rest key val

def mapDelete {α β : Type} [DecidableEq α] : List (α × β) → α → List (α × β)
  | [], _ => []
  | (k, v) :: rest, key =>
      if k = key then mapDelete rest key else (k, v) :: mapDelete rest key

/-- JS truthiness for a `string | undefined` value: `undefined` and the
empty string are falsy. -/
def strOptFalsy : Option String → Bool
  | none => true
  | some s => s = ""

/-! Configuration (`ServerConfig` interface plus the derived constants
computed at load time). -/

structure ServerConfig where
  allowedOrigins : List String
  allowSameHostDifferentPort : Bool
  pollIntervalMs : Nat
  maxConnectionsPerIp : Nat
  maxTotalConnections : Nat
  trustProxy : Bool
  idleTimeoutMs : Int
  sessionTokenTtlMs : Option Int
deriving DecidableEq

/-- Source: `const sessionTokenTtlMs = Math.max(5000, config.sessionTokenTtlMs ?? 30_000)`. -/
def sessionTokenTtl (cfg : ServerConfig) : Int :=
  max 5000 (cfg.sessionTokenTtlMs.getD 30000)

/-! Session token store. -/

structure SessionTokenState where
  ip : String
  origin : String
  expiresAt : Int
deriving DecidableEq

abbrev TokenStore := List (String × SessionTokenState)

/-- Source: `cleanExpiredSessionTokens` deletes every entry with
`expiresAt <= now`; an entry survives iff `now < expiresAt`. -/
def cleanExpiredSessionTokens (tokens : TokenStore) (now : Int) : TokenStore :=
  tokens.filter (fun p => decide (now < p.2.expiresAt))

/-- Source: the `GET /session-token` handler body after the admission
check: store the fresh token bound to `(ip, originHeader ?? '')` with
`expiresAt = Date.now() + sessionTokenTtlMs`, then run
`cleanExpiredSessionTokens()`, and answer `{token, expiresAt}`.  The random
token value is passed in as `tok` (the code draws 24 random bytes, hex
encoded, hence always a non-empty string). -/
def issueSession (ttlMs : Int) (tokens : TokenStore) (tok ip : String)
    (originHeader : Option String) (now : Int) : Int × TokenStore :=
  let expiresAt := now + ttlMs
  let t1 := mapSet tokens tok ⟨ip, originHeader.getD "", expiresAt⟩
  (expiresAt, cleanExpiredSessionTokens t1 now)

/-! Origin / host allow-listing.  The WHATWG `URL` constructor is
abstracted as `parse : String -> Option URLParts`: `none` models the
constructor throwing, `some u` a successful parse exposing the observed
components. -/

structure URLParts where
  protocol : String
  hostname : String
deriving DecidableEq

/-- Source: the scan loop at the end of `isOriginAllowed`: accept when some
allow-list entry parses and agrees with the request origin on
`protocol` and `hostname`; entries that fail to parse are skipped. -/
def sameHostScan (parse : String → Option URLParts) (entries : List String)
    (u : URLParts) : Bool :=
  entries.any (fun a =>
    match parse a with
    | some au => au.protocol == u.protocol && au.hostname == u.hostname
    | none => false)

/-- Source: `isOriginAllowed(originHeader)`. -/
def isOriginAllowed (cfg : ServerConfig) (parse : String → Option URLParts)
    (originHeader : Option String) : Bool :=
  if cfg.allowedOrigins.length = 0 then true
  else if strOptFalsy originHeader then false
  else
    let o := originHeader.getD ""
    if cfg.allowedOrigins.contains o then true
    else if !cfg.allowSameHostDifferentPort then false
    else
      match parse o with
      | none => false
      | some u => sameHostScan parse cfg.allowedOrigins u

/-- Shape of the claim's description of `isOriginAllowed` for a present,
non-empty origin: allow-list empty, or verbatim member, or (dev mode only)
scheme+hostname match with some entry. -/
def isOriginAllowedSpec (cfg : ServerConfig) (parse : String → Option URLParts)
    (o : String) : Bool :=
  cfg.allowedOrigins.isEmpty || cfg.allowedOrigins.contains o ||
    (cfg.allowSameHostDifferentPort &&
      match parse o with
      | none => false
      | some u => sameHostScan parse cfg.allowedOrigins u)

/-- Source: `extractHostname(value)`: parse `"http://" + value` and
lowercase the hostname; `null` when the constructor throws. -/
def extractHostname (parse : String → Option URLParts) (value : String) :
    Option String :=
  match parse ("http://" ++ value) with
  | some u => some u.hostname.toLower
  | none => none

/-- Source: `isHostAllowed(hostHeader)`. -/
def isHostAllowed (cfg : ServerConfig) (parse : String → Option URLParts)
    (hostHeader : Option String) : Bool :=
  if cfg.allowedOrigins.length = 0 then true
  else if strOptFalsy hostHeader then false
  else
    match extractHostname parse (hostHeader.getD "") with
    | none => false
    | some requestHost =>
        cfg.allowedOrigins.any (fun a =>
          match parse a with
          | some au => au.hostname.toLower == requestHost
          | none => false)

/-- Source: `isSessionRequestAllowed(req, originHeader)`: origin check
first, then the Host-header fallback for requests whose origin is absent
(or the empty string, which is falsy in JS). -/
def isSessionRequestAllowed (cfg : ServerConfig)
    (parse : String → Option URLParts)
    (originHeader hostHeader : Option String) : Bool :=
  if isOriginAllowed cfg parse originHeader then true
  else if strOptFalsy originHeader then isHostAllowed cfg parse hostHeader
  else false

/-! Client IP derivation (`getClientIp`).  Node exposes each request
header as `string | string[] | undefined`; only the `string` case passes
the `typeof` guards. -/

inductive HeaderVal where
  | str (s : String)
  | arr (ss : List String)
deriving DecidableEq

structure ReqHeaders where
  cfConnectingIp : Option HeaderVal
  xRealIp : Option HeaderVal
  xForwardedFor : Option HeaderVal
deriving DecidableEq

/-- Helper for `typeof v === 'string' && v.trim() !== ''` followed by
`return v.trim()`. -/
def trimmedNonempty : Option HeaderVal → Option String
  | some (.str s) => if s.trim = "" then none else some s.trim
  | _ => none

/-- Helper for the `x-forwarded-for` branch:
`typeof forwarded === 'string'` then `forwarded.split(',')[0].trim()`. -/
def xffIp : Option HeaderVal → Option String
  | some (.str s) => some (((s.splitOn ",").headD "").trim)
  | _ => none

/-- Source: `getClientIp(req)`. -/
def getClientIp (trustProxy : Bool) (h : ReqHeaders)
    (remoteAddress : Option String) : String :=
  if trustProxy then
    match trimmedNonempty h.cfConnectingIp with
    | some ip => ip
    | none =>
        match trimmedNonempty h.xRealIp with
        | some ip => ip
        | none =>
            match xffIp h.xForwardedFor with
            | some ip => ip
            | none => remoteAddress.getD "unknown"
  else remoteAddress.getD "unknown"

/-! Connection registry: the `clients` map (keyed by the `ws` object,
modelled as a numeric connection id) and the `ipConnectionCounts` map. -/

structure ClientConnection where
  ip : String
  connectedAt : Int
  lastPongAt : Int
deriving DecidableEq

structure RegistryState where
  clients : List (Nat × ClientConnection)
  ipConnectionCounts : List (String × Int)
deriving DecidableEq

def emptyRegistry : RegistryState := ⟨[], []⟩

/-- Number of registered connections whose recorded ip is `ip`. -/
def countIp (clients : List (Nat × ClientConnection)) (ip : String) : Nat :=
  (clients.filter (fun p => decide (p.2.ip = ip))).length

/-- Source: the start of the `wss.on('connection')` handler:
`clients.set(ws, {ws, ip, connectedAt: now, lastPongAt: now})` and
`ipConnectionCounts.set(ip, (ipConnectionCounts.get(ip) ?? 0) + 1)`. -/
def registerConn (reg : RegistryState) (id : Nat) (ip : String) (now : Int) :
    RegistryState :=
  { clients := mapSet reg.clients id ⟨ip, now, now⟩
    ipConnectionCounts :=
      mapSet reg.ipConnectionCounts ip
        ((mapGet reg.ipConnectionCounts ip).getD 0 + 1) }

/-- Source: the `ws.on('close')` handler: `clients.delete(ws)`, then
`newCount = (ipConnectionCounts.get(ip) ?? 1) - 1`, deleting the per-ip
key when `newCount <= 0` and storing `newCount` otherwise.  The handler's
captured `ip` is the ip recorded for the connection at registration. -/
def closeConn (reg : RegistryState) (id : Nat) : RegistryState :=
  match mapGet reg.clients id with
  | none => reg
  | some c =>
      let newCount : Int := (mapGet reg.ipConnectionCounts c.ip).getD 1 - 1
      { clients := mapDelete reg.clients id
        ipConnectionCounts :=
          if newCount ≤ 0 then mapDelete reg.ipConnectionCounts c.ip
          else mapSet reg.ipConnectionCounts c.ip newCount }

/-! Traces of registry events.  A `join` fires for a fresh socket object
(the `ws` key is never already in `clients`) and a `close` fires exactly
once, for a currently registered socket; `validRegOps` checks these
runtime-guaranteed preconditions. -/

inductive RegOp where
  | join (id : Nat) (ip : String) (now : Int)
  | close (id : Nat)
deriving DecidableEq

def applyRegOp (reg : RegistryState) : RegOp → RegistryState
  | .join id ip now => registerConn reg id ip now
  | .close id => closeConn reg id

def applyRegOps (reg : RegistryState) (ops : List RegOp) : RegistryState :=
  ops.foldl applyRegOp reg

def validRegOps (reg : RegistryState) : List RegOp → Bool
  | [] => true
  | .join id ip now :: rest =>
      (mapGet reg.clients id).isNone &&
        validRegOps (applyRegOp reg (.join id ip now)) rest
  | .close id :: rest =>
      (mapGet reg.clients id).isSome &&
        validRegOps (applyRegOp reg (.close id)) rest

def numJoins : List RegOp → Nat
  | [] => 0
  | .join _ _ _ :: rest => numJoins rest + 1
  | .close _ :: rest => numJoins rest

def numCloses : List RegOp → Nat
  | [] => 0
  | .join _ _ _ :: rest => numCloses rest
  | .close _ :: rest => numCloses rest + 1

/-- Registry invariant: per-ip counts track the registered connections
exactly, with the key deleted (not kept at zero) when no connection from
that ip remains; socket keys are unique. -/
def RegInv (reg : RegistryState) : Prop :=
  (reg.clients.map Prod.fst).Nodup ∧
    ∀ ip, mapGet reg.ipConnectionCounts ip =
      (if countIp reg.clients ip = 0 then none
       else some ((countIp reg.clients ip : Nat) : Int))

/-! JS values, as needed by the state-file poller: numbers distinguish
the non-finite cases (`Number.isFinite` guard, `!==` comparison where
`NaN !== NaN`), and parsed JSON is a tree of objects / arrays /
primitives. -/

inductive JSNum where
  | nan
  | posInf
  | negInf
  | finite (q : ℚ)
deriving DecidableEq

/-- JS strict equality `===` on numbers (`NaN === NaN` is false). -/
def jsStrictEqNum : JSNum → JSNum → Bool
  | .nan, _ => false
  | _, .nan => false
  | .posInf, .posInf => true
  | .negInf, .negInf => true
  | .finite a, .finite b => a == b
  | _, _ => false

inductive JSValue where
  | null
  | undef
  | bool (b : Bool)
  | num (n : JSNum)
  | str (s : String)
  | arr (elems : List JSValue)
  | obj (fields : List (String × JSValue))

/-- Property access `v.name`: `undefined` (`none`) unless `v` is an
object carrying the field. -/
def getProp : JSValue → String → Option JSValue
  | .obj fields, name => mapGet fields name
  | _, _ => none

/-- The `name in v` operator restricted to the plain-object case used by
the validator. -/
def hasPropName : JSValue → String → Bool
  | .obj fields, name => (mapGet fields name).isSome
  | _, _ => false

/-- Source: `isObject(value)`: `typeof value === 'object' && value !== null`
(arrays are objects in JS). -/
def isObject : JSValue → Bool
  | .obj _ => true
  | .arr _ => true
  | _ => false

/-! Channel-upgrade handshake (`httpServer.on('upgrade')`). -/

inductive UpgradeOutcome where
  | rejected (status : Nat) (message : String)
  | accepted
deriving DecidableEq

/-- One upgrade request.  `urlParse` models
`new URL(req.url ?? '/', ...)` followed by
`searchParams.get('sessionToken')`: `none` is the constructor throwing,
`some tok?` a parsed URL whose `sessionToken` query parameter is `tok?`
(absent parameter gives `none`, `?sessionToken=` gives `some ""`).
`hostHeader` only feeds log lines in the source and never the decision. -/
structure UpgradeRequest where
  originHeader : Option String
  hostHeader : Option String
  ipHeaders : ReqHeaders
  remoteAddress : Option String
  wsId : Nat
  urlParse : Option (Option String)
deriving DecidableEq

structure ServerState where
  registry : RegistryState
  sessionTokens : TokenStore
  lastState : String
  lastTimestamp : JSNum
deriving DecidableEq

/-- Source: the token-validation tail of the upgrade handler (missing /
invalid / expired / ip mismatch / origin mismatch, in that order, each
mismatch deleting the entry). -/
def validateUpgradeToken (tokens : TokenStore) (tokenParam : Option String)
    (ip : String) (originHeader : Option String) (now : Int) :
    UpgradeOutcome × TokenStore :=
  if strOptFalsy tokenParam then
    (.rejected 401 "Missing session token", tokens)
  else
    let tok := tokenParam.getD ""
    match mapGet tokens tok with
    | none => (.rejected 401 "Invalid session token", tokens)
    | some session =>
        if session.expiresAt ≤ now then
          (.rejected 401 "Session token expired", mapDelete tokens tok)
        else if session.ip ≠ ip then
          (.rejected 401 "Session token mismatch", mapDelete tokens tok)
        else
          match originHeader with
          | some o =>
              if session.origin ≠ "" ∧ o ≠ "" ∧ session.origin ≠ o then
                (.rejected 401 "Session token origin mismatch",
                  mapDelete tokens tok)
              else (.accepted, tokens)
          | none => (.accepted, tokens)

/-- Source: the URL-parsing step of the upgrade handler (400 on a
throwing constructor, then `searchParams.get('sessionToken')` feeding the
token validation). -/
def upgradeTokenStage (tokens : TokenStore) (req : UpgradeRequest)
    (ip : String) (now : Int) : UpgradeOutcome × TokenStore :=
  match req.urlParse with
  | none => (.rejected 400 "Bad request", tokens)
  | some tokenParam => validateUpgradeToken tokens tokenParam ip req.originHeader now

/-- The ip the handlers derive for a request. -/
def reqIp (cfg : ServerConfig) (req : UpgradeRequest) : String :=
  getClientIp cfg.trustProxy req.ipHeaders req.remoteAddress

/-- Source: the full upgrade-handler decision: origin allow-list (403),
global capacity (503), per-ip capacity (429), then URL/token checks.
Returns the pre-upgrade outcome together with the (possibly revoked)
session-token store. -/
def handleUpgrade (cfg : ServerConfig) (parse : String → Option URLParts)
    (st : ServerState) (req : UpgradeRequest) (now : Int) :
    UpgradeOutcome × TokenStore :=
  let ip := reqIp cfg req
  if !isOriginAllowed cfg parse req.originHeader then
    (.rejected 403 "Origin not allowed", st.sessionTokens)
  else if st.registry.clients.length ≥ cfg.maxTotalConnections then
    (.rejected 503 "Server at capacity", st.sessionTokens)
  else if (mapGet st.registry.ipConnectionCounts ip).getD 0 ≥
      (cfg.maxConnectionsPerIp : Int) then
    (.rejected 429 "Too many connections", st.sessionTokens)
  else upgradeTokenStage st.sessionTokens req ip now

/-! The post-upgrade connection handler, as an ordered list of the
observable actions it performs. -/

inductive ServerEffect where
  | setClient (id : Nat) (ip : String)
  | incIpCount (ip : String)
  | log (msg : String)
  | send (payload : String)
deriving DecidableEq

/-- Source: `JSON.stringify(welcome)` for the welcome object built in the
connection handler (key order is insertion order). -/
def welcomeJson (cfg : ServerConfig) : String :=
  "\x7b\"type\":\"welcome\",\"message\":\"Connected to Guild War Broadcast\"," ++
    "\"mapDimensions\":\x7b\"width\":4800,\"height\":3000\x7d," ++
    "\"updateIntervalMs\":" ++ toString cfg.pollIntervalMs ++ "\x7d"

/-- Source: the `wss.on('connection')` handler: register the connection
in both maps, log, send the welcome message, then send `lastState`.  The
two `ws.send` calls come strictly after the registration mutations, so no
send outcome can undo or skip them. -/
def onConnection (cfg : ServerConfig) (st : ServerState) (id : Nat)
    (ip : String) (now : Int) : ServerState × List ServerEffect :=
  let reg := registerConn st.registry id ip now
  ({ st with registry := reg },
    [ .setClient id ip,
      .incIpCount ip,
      .log ("Client connected: " ++ ip ++ " (total: " ++
        toString reg.clients.length ++ ")"),
      .send (welcomeJson cfg),
      .send st.lastState ])

/-- One full join attempt: the upgrade decision followed, on acceptance,
by the connection handler. -/
def attemptJoin (cfg : ServerConfig) (parse : String → Option URLParts)
    (st : ServerState) (req : UpgradeRequest) (now : Int) :
    UpgradeOutcome × ServerState × List ServerEffect :=
  let r := handleUpgrade cfg parse st req now
  let st1 : ServerState := { st with sessionTokens := r.2 }
  match r.1 with
  | .accepted =>
      let p := onConnection cfg st1 req.wsId (reqIp cfg req) now
      (.accepted, p.1, p.2)
  | o => (o, st1, [])

/-- A sequence of join attempts (no close events in between). -/
def runAttempts (cfg : ServerConfig) (parse : String → Option URLParts) :
    ServerState → List (UpgradeRequest × Int) → ServerState × List UpgradeOutcome
  | st, [] => (st, [])
  | st, (req, now) :: rest =>
      let r := attemptJoin cfg parse st req now
      let t := runAttempts cfg parse r.2.1 rest
      (t.1, r.1 :: t.2)

/-! State-file poller. -/

/-- Source: `isValidBroadcastPayload(value)`: an object tagged
`type: 'state'` with a finite numeric `timestamp`, an array `instances`,
and, when a `mapDimensions` field is present and not `undefined`, an
object with numeric `width` and `height`. -/
def isValidBroadcastPayload (v : JSValue) : Bool :=
  isObject v &&
  (match getProp v "type" with
    | some (.str s) => s == "state"
    | _ => false) &&
  (match getProp v "timestamp" with
    | some (.num (.finite _)) => true
    | _ => false) &&
  (match getProp v "instances" with
    | some (.arr _) => true
    | _ => false) &&
  (if hasPropName v "mapDimensions" then
    match getProp v "mapDimensions" with
    | some .undef => true
    | some md =>
        isObject md &&
        (match getProp md "width" with
          | some (.num _) => true
          | _ => false) &&
        (match getProp md "height" with
          | some (.num _) => true
          | _ => false)
    | none => true
  else true)

/-- The `timestamp` field of a payload (only meaningful once the payload
passed validation, which forces it to be a number). -/
def payloadTimestamp (v : JSValue) : JSNum :=
  match getProp v "timestamp" with
  | some (.num n) => n
  | _ => .nan

/-- Source: `pollStateFile()`.  The file read and `JSON.parse` are the
true I/O boundary and enter as `readResult`: `none` when the file is
absent or reading/parsing threw (the catch-all swallows it), otherwise
the raw content string together with its parse.  The returned
`Option String` is the argument of the `broadcastToClients` call (`none`
when nothing is broadcast). -/
def pollStateFile (readResult : Option (String × Option JSValue))
    (st : ServerState) : ServerState × Option String :=
  match readResult with
  | none => (st, none)
  | some (_, none) => (st, none)
  | some (content, some parsed) =>
      if !isValidBroadcastPayload parsed then (st, none)
      else if !jsStrictEqNum (payloadTimestamp parsed) st.lastTimestamp then
        ({ st with lastTimestamp := payloadTimestamp parsed,
                   lastState := content }, some content)
      else (st, none)

/-- Source: `broadcastToClients(json)`: push `json` to every connection
whose socket is in the OPEN ready state (`openSocket` models each
socket's runtime `readyState`); the result lists the performed sends. -/
def broadcastToClients (openSocket : Nat → Bool)
    (clients : List (Nat × ClientConnection)) (json : String) :
    List (Nat × String) :=
  (clients.filter (fun p => openSocket p.1)).map (fun p => (p.1, json))

/-! Concrete fixtures used to instantiate the theorems below. -/

/-- A small concrete URL parser covering the origins appearing in the
concrete instances (the WHATWG constructor normalises `protocol` to
include the trailing colon and lowercases `hostname`). -/
def demoParse : String → Option URLParts := fun s =>
  if s = "https://viewer.example.com" then some ⟨"https:", "viewer.example.com"⟩
  else if s = "https://viewer.example.com:8443" then some ⟨"https:", "viewer.example.com"⟩
  else if s = "http://viewer.example.com" then some ⟨"http:", "viewer.example.com"⟩
  else if s = "http://viewer.example.com:443" then some ⟨"http:", "viewer.example.com"⟩
  else none

def demoCfg : ServerConfig :=
  { allowedOrigins := ["https://viewer.example.com"]
    allowSameHostDifferentPort := false
    pollIntervalMs := 1000
    maxConnectionsPerIp := 1
    maxTotalConnections := 2
    trustProxy := false
    idleTimeoutMs := 60000
    sessionTokenTtlMs := some 30000 }

def demoHeaders : ReqHeaders := ⟨none, none, none⟩

def demoRequest : UpgradeRequest :=
  { originHeader := some "https://viewer.example.com"
    hostHeader := some "viewer.example.com"
    ipHeaders := demoHeaders
    remoteAddress := some "9.9.9.9"
    wsId := 7
    urlParse := some (some "tokenvalue") }

/-- A concrete connection trace: three joins from two ips interleaved
with two closes. -/
def demoTrace : List RegOp :=
  [.join 1 "10.0.0.1" 0, .join 2 "10.0.0.1" 5, .close 1,
   .join 3 "10.0.0.2" 9, .close 2]

def demoState0 : ServerState :=
  { registry := emptyRegistry
    sessionTokens := []
    lastState := "state0"
    lastTimestamp := .finite 0 }

/-- A server state whose registry is at `demoCfg`'s global capacity. -/
def demoStateFull : ServerState :=
  { demoState0 with registry :=
      { clients := [(1, ⟨"10.0.0.1", 0, 0⟩), (2, ⟨"10.0.0.2", 0, 0⟩)]
        ipConnectionCounts := [("10.0.0.1", 1), ("10.0.0.2", 1)] } }

/-- A server state with one open connection from `9.9.9.9` (the ip of
`demoRequest`), which saturates `demoCfg`'s per-ip quota of one. -/
def demoStatePerIp : ServerState :=
  { demoState0 with registry :=
      { clients := [(5, ⟨"9.9.9.9", 0, 0⟩)]
        ipConnectionCounts := [("9.9.9.9", 1)] } }

/-- A concrete broadcast payload value: the parse of
`{"type":"state","timestamp":100,"instances":[]}`. -/
def demoPayload : JSValue :=
  .obj [("type", .str "state"), ("timestamp", .num (.finite 100)),
    ("instances", .arr [])]

/-- A second payload sharing `demoPayload`'s timestamp but with different
content: the parse of
`{"type":"state","timestamp":100,"instances":[{"id":1}]}`. -/
def demoPayloadB : JSValue :=
  .obj [("type", .str "state"), ("timestamp", .num (.finite 100)),
    ("instances", .arr [.obj [("id", .num (.finite 1))]])]

/-! Association-list lemmas for the JS `Map` model. -/

section MapLemmas

variable {α β : Type} [DecidableEq α]

theorem mapGet_mapSet_self (l : List (α × β)) (k : α) (v : β) :
    mapGet (mapSet l k v) k = some v := by
  induction l with
  | nil => simp [mapSet, mapGet]
  | cons head tail ih =>
      obtain ⟨a, b⟩ := head
      by_cases h : a = k
      · subst h; simp [mapSet, mapGet]
      · simp [mapSet, mapGet, h, ih]

theorem mapGet_mapSet_ne (l : List (α × β)) {k k' : α} (v : β) (h : k' ≠ k) :
    mapGet (mapSet l k v) k' = mapGet l k' := by
  induction l with
  | nil => simp [mapSet, mapGet, Ne.symm h]
  | cons head tail ih =>
      obtain ⟨a, b⟩ := head
      by_cases ha : a = k
      · subst ha; simp [mapSet, mapGet, Ne.symm h]
      · simp [mapSet, mapGet, ha, ih]

theorem mapSet_eq_append {l : List (α × β)} {k : α} (v : β)
    (h : mapGet l k = none) : mapSet l k v = l ++ [(k, v)] := by
  induction l with
  | nil => simp [mapSet]
  | cons head tail ih =>
      obtain ⟨a, b⟩ := head
      have ha : ¬ a = k := by
        intro hh
        simp [mapGet, hh] at h
      rw [mapGet, if_neg ha] at h
      simp [mapSet, ha, ih h]

theorem mapGet_eq_none_iff {l : List (α × β)} {k : α} :
    mapGet l k = none ↔ k ∉ l.map Prod.fst := by
  induction l with
  | nil => simp [mapGet]
  | cons head tail ih =>
      obtain ⟨a, b⟩ := head
      by_cases ha : a = k
      · subst ha; simp [mapGet]
      · simp [mapGet, ha, Ne.symm ha, ih]

theorem mapGet_mem {l : List (α × β)} {k : α} {v : β}
    (h : mapGet l k = some v) : (k, v) ∈ l := by
  induction l with
  | nil => simp [mapGet] at h
  | cons head tail ih =>
      obtain ⟨a, b⟩ := head
      by_cases ha : a = k
      · subst ha
        rw [mapGet, if_pos rfl] at h
        obtain rfl : b = v := by injection h
        exact List.mem_cons_self _ _
      · rw [mapGet, if_neg ha] at h
        exact List.mem_cons_of_mem _ (ih h)

theorem mapGet_mapDelete_self (l : List (α × β)) (k : α) :
    mapGet (mapDelete l k) k = none := by
  induction l with
  | nil => simp [mapDelete, mapGet]
  | cons head tail ih =>
      obtain ⟨a, b⟩ := head
      by_cases ha : a = k <;> simp [mapDelete, mapGet, ha, ih]

theorem mapGet_mapDelete_ne (l : List (α × β)) {k k' : α} (h : k' ≠ k) :
    mapGet (mapDelete l k) k' = mapGet l k' := by
  induction l with
  | nil => simp [mapDelete]
  | cons head tail ih =>
      obtain ⟨a, b⟩ := head
      by_cases ha : a = k
      · subst ha
        have : ¬ a = k' := fun hh => h (hh.symm ▸ rfl)
        simp [mapDelete, mapGet, this, ih]
      · simp [mapDelete, mapGet, ha, ih]

theorem mapDelete_eq_self {l : List (α × β)} {k : α}
    (h : mapGet l k = none) : mapDelete l k = l := by
  induction l with
  | nil => simp [mapDelete]
  | cons head tail ih =>
      obtain ⟨a, b⟩ := head
      have ha : ¬ a = k := by
        intro hh
        simp [mapGet, hh] at h
      rw [mapGet, if_neg ha] at h
      simp [mapDelete, ha, ih h]

theorem mapDelete_sublist (l : List (α × β)) (k : α) :
    (mapDelete l k).Sublist l := by
  induction l with
  | nil => simp [mapDelete]
  | cons head tail ih =>
      obtain ⟨a, b⟩ := head
      by_cases ha : a = k
      · rw [mapDelete, if_pos ha]
        exact ih.cons _
      · rw [mapDelete, if_neg ha]
        exact ih.cons₂ _

theorem length_mapDelete {l : List (α × β)} {k : α} {v : β}
    (hnd : (l.map Prod.fst).Nodup) (h : mapGet l k = some v) :
    (mapDelete l k).length + 1 = l.length := by
  induction l with
  | nil => simp [mapGet] at h
  | cons head tail ih =>
      obtain ⟨a, b⟩ := head
      rw [List.map_cons, List.nodup_cons] at hnd
      obtain ⟨hna, hnd'⟩ := hnd
      by_cases ha : a = k
      · subst ha
        have hnone : mapGet tail a = none := mapGet_eq_none_iff.mpr hna
        simp [mapDelete, mapDelete_eq_self hnone]
      · rw [mapGet, if_neg ha] at h
        simp [mapDelete, ha, ih hnd' h]

theorem mapGet_filter {l : List (α × β)} {k : α} {v : β}
    (p : α × β → Bool) (h : mapGet l k = some v) (hp : p (k, v) = true) :
    mapGet (l.filter p) k = some v := by
  induction l with
  | nil => simp [mapGet] at h
  | cons head tail ih =>
      obtain ⟨a, b⟩ := head
      by_cases ha : a = k
      · subst ha
        rw [mapGet, if_pos rfl] at h
        obtain rfl : b = v := by injection h
        simp [List.filter_cons, hp, mapGet]
      · rw [mapGet, if_neg ha] at h
        rw [List.filter_cons]
        by_cases hpb : p (a, b) = true
        · simp [hpb, mapGet, ha, ih h]
        · simp [hpb, ih h]

end MapLemmas

/-! Counting lemmas for the per-ip invariant. -/

theorem countIp_cons (k : Nat) (c : ClientConnection)
    (t : List (Nat × ClientConnection)) (ip : String) :
    countIp ((k, c) :: t) ip = (if c.ip = ip then 1 else 0) + countIp t ip := by
  by_cases h : c.ip = ip <;>
    simp [countIp, List.filter_cons, h, Nat.add_comm]

theorem countIp_append (l : List (Nat × ClientConnection)) (id : Nat)
    (c : ClientConnection) (ip : String) :
    countIp (l ++ [(id, c)]) ip = countIp l ip + (if c.ip = ip then 1 else 0) := by
  by_cases h : c.ip = ip <;>
    simp [countIp, List.filter_append, List.filter_cons, h]

theorem countIp_mapDelete {l : List (Nat × ClientConnection)} {id : Nat}
    {c : ClientConnection} (hnd : (l.map Prod.fst).Nodup)
    (h : mapGet l id = some c) (ip : String) :
    countIp (mapDelete l id) ip + (if c.ip = ip then 1 else 0) = countIp l ip := by
  induction l with
  | nil => simp [mapGet] at h
  | cons head tail ih =>
      obtain ⟨a, b⟩ := head
      rw [List.map_cons, List.nodup_cons] at hnd
      obtain ⟨hna, hnd'⟩ := hnd
      by_cases ha : a = id
      · subst ha
        rw [mapGet, if_pos rfl] at h
        obtain rfl : b = c := by injection h
        have hnone : mapGet tail a = none := mapGet_eq_none_iff.mpr hna
        rw [mapDelete, if_pos rfl, mapDelete_eq_self hnone, countIp_cons]
        omega
      · rw [mapGet, if_neg ha] at h
        rw [mapDelete, if_neg ha, countIp_cons, countIp_cons]
        have := ih hnd' h
        omega

theorem countIp_pos {l : List (Nat × ClientConnection)} {id : Nat}
    {c : ClientConnection} (h : mapGet l id = some c) :
    0 < countIp l c.ip := by
  have hm : (id, c) ∈ l.filter (fun p => decide (p.2.ip = c.ip)) := by
    simp [List.mem_filter, mapGet_mem h]
  exact List.length_pos.mpr (List.ne_nil_of_mem hm)

/-! Preservation of the registry invariant. -/

theorem regInv_register {reg : RegistryState} (hInv : RegInv reg)
    {id : Nat} {ip : String} {now : Int}
    (hfresh : mapGet reg.clients id = none) :
    RegInv (registerConn reg id ip now) ∧
      (registerConn reg id ip now).clients.length = reg.clients.length + 1 := by
  obtain ⟨hnd, hcnt⟩ := hInv
  have happ : mapSet reg.clients id (⟨ip, now, now⟩ : ClientConnection) =
      reg.clients ++ [(id, ⟨ip, now, now⟩)] := mapSet_eq_append _ hfresh
  have hidout : id ∉ reg.clients.map Prod.fst := mapGet_eq_none_iff.mp hfresh
  refine ⟨⟨?_, ?_⟩, ?_⟩
  · simp only [registerConn]
    rw [happ, List.map_append, List.nodup_append]
    refine ⟨hnd, by simp, ?_⟩
    intro x hx hxmem
    simp only [List.map_cons, List.map_nil, List.mem_singleton] at hxmem
    exact hidout (hxmem ▸ hx)
  · intro ip'
    simp only [registerConn]
    by_cases hip : ip' = ip
    · rw [hip]
      have heq : countIp (mapSet reg.clients id ⟨ip, now, now⟩) ip =
          countIp reg.clients ip + 1 := by
        rw [happ, countIp_append]
        simp
      rw [mapGet_mapSet_self, heq, if_neg (by omega)]
      rcases Nat.eq_zero_or_pos (countIp reg.clients ip) with h0 | hp
      · rw [hcnt ip, if_pos h0, h0]
        simp
      · rw [hcnt ip, if_neg (by omega)]
        simp
    · have heq : countIp (mapSet reg.clients id ⟨ip, now, now⟩) ip' =
          countIp reg.clients ip' := by
        rw [happ, countIp_append]
        have hne : ¬((⟨ip, now, now⟩ : ClientConnection).ip = ip') :=
          fun hh => hip (hh.symm)
        rw [if_neg hne, Nat.add_zero]
      rw [mapGet_mapSet_ne _ _ hip, heq, hcnt ip']
  · simp only [registerConn]
    rw [happ]
    simp

theorem regInv_close {reg : RegistryState} (hInv : RegInv reg)
    {id : Nat} {c : ClientConnection}
    (hmem : mapGet reg.clients id = some c) :
    RegInv (closeConn reg id) ∧
      (closeConn reg id).clients.length + 1 = reg.clients.length := by
  obtain ⟨hnd, hcnt⟩ := hInv
  have hpos : 0 < countIp reg.clients c.ip := countIp_pos hmem
  have hget : mapGet reg.ipConnectionCounts c.ip =
      some ((countIp reg.clients c.ip : Nat) : Int) := by
    rw [hcnt c.ip, if_neg (Nat.pos_iff_ne_zero.mp hpos)]
  have hcount := fun ip => countIp_mapDelete hnd hmem ip
  have hndDel : ((mapDelete reg.clients id).map Prod.fst).Nodup :=
    hnd.sublist ((mapDelete_sublist reg.clients id).map Prod.fst)
  have hlen : (mapDelete reg.clients id).length + 1 = reg.clients.length :=
    length_mapDelete hnd hmem
  by_cases hone : countIp reg.clients c.ip = 1
  · have hclose : closeConn reg id =
        ⟨mapDelete reg.clients id, mapDelete reg.ipConnectionCounts c.ip⟩ := by
      simp only [closeConn, hmem, hget, Option.getD_some]
      rw [if_pos (show ((countIp reg.clients c.ip : Nat) : Int) - 1 ≤ 0 by omega)]
    rw [hclose]
    refine ⟨⟨hndDel, ?_⟩, hlen⟩
    intro ip'
    dsimp only
    by_cases hip : ip' = c.ip
    · rw [hip, mapGet_mapDelete_self]
      have hc := hcount c.ip
      rw [if_pos rfl] at hc
      have hz : countIp (mapDelete reg.clients id) c.ip = 0 := by omega
      rw [hz, if_pos rfl]
    · have hc := hcount ip'
      rw [if_neg (fun hh => hip hh.symm)] at hc
      rw [mapGet_mapDelete_ne _ hip, hcnt ip']
      have heq : countIp (mapDelete reg.clients id) ip' = countIp reg.clients ip' := by
        omega
      rw [heq]
  · have hclose : closeConn reg id =
        ⟨mapDelete reg.clients id,
          mapSet reg.ipConnectionCounts c.ip
            (((countIp reg.clients c.ip : Nat) : Int) - 1)⟩ := by
      simp only [closeConn, hmem, hget, Option.getD_some]
      rw [if_neg (show ¬(((countIp reg.clients c.ip : Nat) : Int) - 1 ≤ 0) by omega)]
    rw [hclose]
    refine ⟨⟨hndDel, ?_⟩, hlen⟩
    intro ip'
    dsimp only
    by_cases hip : ip' = c.ip
    · rw [hip, mapGet_mapSet_self]
      have hc := hcount c.ip
      rw [if_pos rfl] at hc
      have hz : countIp (mapDelete reg.clients id) c.ip =
          countIp reg.clients c.ip - 1 := by omega
      rw [hz, if_neg (by omega)]
      congr 1
      omega
    · rw [mapGet_mapSet_ne _ _ hip]
      have hc := hcount ip'
      rw [if_neg (fun hh => hip hh.symm)] at hc
      rw [hcnt ip']
      have heq : countIp (mapDelete reg.clients id) ip' = countIp reg.clients ip' := by
        omega
      rw [heq]

theorem validRegOps_inv (ops : List RegOp) : ∀ (reg : RegistryState),
    RegInv reg → validRegOps reg ops = true →
    RegInv (applyRegOps reg ops) ∧
      (applyRegOps reg ops).clients.length + numCloses ops =
        reg.clients.length + numJoins ops := by
  induction ops with
  | nil =>
      intro reg hInv _
      exact ⟨hInv, by simp [applyRegOps, numCloses, numJoins]⟩
  | cons op rest ih =>
      intro reg hInv hvalid
      cases op with
      | join id ip now =>
          simp only [validRegOps, Bool.and_eq_true] at hvalid
          obtain ⟨hfresh, hrest⟩ := hvalid
          have hfresh' : mapGet reg.clients id = none :=
            Option.isNone_iff_eq_none.mp hfresh
          obtain ⟨hInv', hlen⟩ := @regInv_register reg hInv id ip now hfresh'
          have happly : applyRegOps reg (RegOp.join id ip now :: rest) =
              applyRegOps (registerConn reg id ip now) rest := rfl
          rw [happly]
          have hrest' : validRegOps (registerConn reg id ip now) rest = true := hrest
          obtain ⟨hI, hL⟩ := ih (registerConn reg id ip now) hInv' hrest'
          refine ⟨hI, ?_⟩
          simp only [numJoins, numCloses]
          omega
      | close id =>
          simp only [validRegOps, Bool.and_eq_true] at hvalid
          obtain ⟨hsome, hrest⟩ := hvalid
          obtain ⟨c, hc⟩ := Option.isSome_iff_exists.mp hsome
          obtain ⟨hInv', hlen⟩ := @regInv_close reg hInv id c hc
          have happly : applyRegOps reg (RegOp.close id :: rest) =
              applyRegOps (closeConn reg id) rest := rfl
          rw [happly]
          have hrest' : validRegOps (closeConn reg id) rest = true := hrest
          obtain ⟨hI, hL⟩ := ih (closeConn reg id) hInv' hrest'
          refine ⟨hI, ?_⟩
          simp only [numJoins, numCloses]
          omega

/-- C6: after every valid sequence of connection registrations and closes
starting from the empty registry, the per-ip count map has, for each ip,
exactly the number of currently registered connections with that ip — with
the key absent (deleted, not kept at zero) when that number is zero — and
the registry size equals the number of joins minus the number of closes
(stated additively to stay in ℕ). -/
theorem registry_counts_track_connections (ops : List RegOp)
    (hvalid : validRegOps emptyRegistry ops = true) :
    (∀ ip, mapGet (applyRegOps emptyRegistry ops).ipConnectionCounts ip =
      (if countIp (applyRegOps emptyRegistry ops).clients ip = 0 then none
       else some ((countIp (applyRegOps emptyRegistry ops).clients ip : Nat) : Int))) ∧
    (applyRegOps emptyRegistry ops).clients.length + numCloses ops = numJoins ops := by
  have hbase : RegInv emptyRegistry := by
    constructor
    · simp [emptyRegistry]
    · intro ip
      simp [emptyRegistry, mapGet, countIp]
  obtain ⟨⟨_, hcnt⟩, hlen⟩ := validRegOps_inv ops emptyRegistry hbase hvalid
  refine ⟨hcnt, ?_⟩
  simpa [emptyRegistry] using hlen

/-- Witness for C6 on the concrete five-event trace. -/
theorem registry_counts_track_connections_witness :
    validRegOps emptyRegistry demoTrace = true ∧
    mapGet (applyRegOps emptyRegistry demoTrace).ipConnectionCounts "10.0.0.1" =
      (if countIp (applyRegOps emptyRegistry demoTrace).clients "10.0.0.1" = 0 then none
       else some ((countIp (applyRegOps emptyRegistry demoTrace).clients "10.0.0.1" : Nat) : Int)) ∧
    (applyRegOps emptyRegistry demoTrace).clients.length + numCloses demoTrace =
      numJoins demoTrace :=
  ⟨by decide,
    (registry_counts_track_connections demoTrace (by decide)).1 "10.0.0.1",
    (registry_counts_track_connections demoTrace (by decide)).2⟩

/-- C10: when `trustProxy` is false the derived client ip is the
transport peer address (the constant "unknown" when that is absent) and
is independent of the `cf-connecting-ip`, `x-real-ip` and
`x-forwarded-for` headers: two requests differing only in those headers
yield the same client ip. -/
theorem client_ip_ignores_headers_without_proxy (h₁ h₂ : ReqHeaders)
    (addr : Option String) :
    getClientIp false h₁ addr = addr.getD "unknown" ∧
    getClientIp false h₁ addr = getClientIp false h₂ addr := by
  constructor <;> rfl

/-- C4 counterexample: the claim says a verbatim allow-list member is
accepted, but with allow-list `[""]` (non-empty) the origin string `""`
is a verbatim member and is still rejected, because the empty string is
falsy and handled by the absent-header check first. -/
theorem origin_allowed_empty_string_counterexample :
    ("" ∈ ([""] : List String)) ∧
    (([""] : List String) ≠ []) ∧
    isOriginAllowed
      ⟨[""], false, 1000, 1, 2, false, 60000, none⟩
      (fun _ => none) (some "") = false := by
  refine ⟨by simp, by simp, ?_⟩
  rfl

/-- C4 (amended): for every present and NON-EMPTY origin string,
`isOriginAllowed` is: true when the allow-list is empty; otherwise true
when the origin is a verbatim member; otherwise, only when
`allowSameHostDifferentPort` is set, true when the origin parses and its
scheme+hostname equal those of some allow-listed entry; otherwise false
(an unparsable origin never reaches the scan).  Entries of the allow-list
that do not parse are skipped by the scan, and every case returns a
boolean (evaluation is total, it cannot crash).  The empty origin string
behaves like an absent Origin header instead. -/
theorem origin_allowed_characterization (cfg : ServerConfig)
    (parse : String → Option URLParts) (o : String) (ho : o ≠ "") :
    isOriginAllowed cfg parse (some o) = isOriginAllowedSpec cfg parse o ∧
    (∀ e entries u, parse e = none →
      sameHostScan parse (e :: entries) u = sameHostScan parse entries u) := by
  constructor
  · rcases hl : cfg.allowedOrigins with _ | ⟨a, rest⟩
    · simp [isOriginAllowed, isOriginAllowedSpec, hl]
    · unfold isOriginAllowed isOriginAllowedSpec
      rw [hl]
      by_cases hc : (a :: rest).contains o
      · simp [strOptFalsy, ho, hc]
      · cases hs : cfg.allowSameHostDifferentPort
        · simp [strOptFalsy, ho, hc, hs]
        · cases hp : parse o
          · simp [strOptFalsy, ho, hc, hs, hp]
          · simp [strOptFalsy, ho, hc, hs, hp]
  · intro e entries u hpe
    simp [sameHostScan, hpe]

/-- Witness for the amended C4 at a concrete configuration and origin. -/
theorem origin_allowed_characterization_witness :
    ("https://viewer.example.com" : String) ≠ "" ∧
    isOriginAllowed demoCfg demoParse (some "https://viewer.example.com") =
      isOriginAllowedSpec demoCfg demoParse "https://viewer.example.com" :=
  ⟨by decide,
    (origin_allowed_characterization demoCfg demoParse
      "https://viewer.example.com" (by decide)).1⟩

/-- C9: when the allow-list is non-empty, a channel-upgrade request with
no Origin header is rejected with 403 (whatever its Host header, which
the decision never reads), while the session-token endpoint falls back to
the Host-header check for origin-less requests. -/
theorem upgrade_has_no_host_fallback (cfg : ServerConfig)
    (parse : String → Option URLParts) (st : ServerState)
    (req : UpgradeRequest) (now : Int)
    (hne : cfg.allowedOrigins ≠ []) (horig : req.originHeader = none) :
    attemptJoin cfg parse st req now =
      (.rejected 403 "Origin not allowed", st, []) ∧
    (∀ hostHeader, isSessionRequestAllowed cfg parse none hostHeader =
      isHostAllowed cfg parse hostHeader) := by
  have hoa : isOriginAllowed cfg parse none = false := by
    unfold isOriginAllowed
    rw [if_neg (fun h => hne (List.length_eq_zero.mp h))]
    rfl
  constructor
  · simp [attemptJoin, handleUpgrade, horig, hoa]
  · intro hostHeader
    simp [isSessionRequestAllowed, hoa, strOptFalsy]

/-- Witness for C9 at the demo configuration. -/
theorem upgrade_has_no_host_fallback_witness :
    demoCfg.allowedOrigins ≠ [] ∧
    attemptJoin demoCfg demoParse demoState0
        { demoRequest with originHeader := none } 0 =
      (.rejected 403 "Origin not allowed", demoState0, []) ∧
    isSessionRequestAllowed demoCfg demoParse none (some "viewer.example.com") =
      isHostAllowed demoCfg demoParse (some "viewer.example.com") :=
  ⟨by decide,
    (upgrade_has_no_host_fallback demoCfg demoParse demoState0
      { demoRequest with originHeader := none } 0 (by decide) rfl).1,
    (upgrade_has_no_host_fallback demoCfg demoParse demoState0
      { demoRequest with originHeader := none } 0 (by decide) rfl).2
      (some "viewer.example.com")⟩

/-- C2: the upgrade-handshake token validation checks its failure reasons
in the fixed order missing (falsy token parameter: absent or empty),
invalid (not found), expired (`expiresAt <= now`, entry removed),
ip-mismatch (bound ip differs, entry removed), origin-mismatch (bound
origin non-empty, request origin present and non-empty, and different;
entry removed); a token whose bound origin is empty matches any request
origin; and after an ip-mismatch rejection a later validation of the same
token value — with any ip, including the correct one — fails as invalid. -/
theorem validate_token_reason_order (tokens : TokenStore) (ip : String)
    (originHeader : Option String) (now : Int) :
    (∀ tp, strOptFalsy tp = true →
      validateUpgradeToken tokens tp ip originHeader now =
        (.rejected 401 "Missing session token", tokens)) ∧
    (∀ tok, tok ≠ "" → mapGet tokens tok = none →
      validateUpgradeToken tokens (some tok) ip originHeader now =
        (.rejected 401 "Invalid session token", tokens)) ∧
    (∀ tok s, tok ≠ "" → mapGet tokens tok = some s → s.expiresAt ≤ now →
      validateUpgradeToken tokens (some tok) ip originHeader now =
        (.rejected 401 "Session token expired", mapDelete tokens tok)) ∧
    (∀ tok s, tok ≠ "" → mapGet tokens tok = some s → now < s.expiresAt →
      s.ip ≠ ip →
      validateUpgradeToken tokens (some tok) ip originHeader now =
        (.rejected 401 "Session token mismatch", mapDelete tokens tok)) ∧
    (∀ tok s o, tok ≠ "" → mapGet tokens tok = some s → now < s.expiresAt →
      s.ip = ip → originHeader = some o → s.origin ≠ "" → o ≠ "" →
      s.origin ≠ o →
      validateUpgradeToken tokens (some tok) ip originHeader now =
        (.rejected 401 "Session token origin mismatch", mapDelete tokens tok)) ∧
    (∀ tok s, tok ≠ "" → mapGet tokens tok = some s → now < s.expiresAt →
      s.ip = ip → s.origin = "" →
      validateUpgradeToken tokens (some tok) ip originHeader now =
        (.accepted, tokens)) ∧
    (∀ tok s ip2 now2, tok ≠ "" → mapGet tokens tok = some s →
      now < s.expiresAt → s.ip ≠ ip →
      validateUpgradeToken tokens (some tok) ip originHeader now =
        (.rejected 401 "Session token mismatch", mapDelete tokens tok) ∧
      validateUpgradeToken (mapDelete tokens tok) (some tok) ip2 originHeader now2 =
        (.rejected 401 "Invalid session token", mapDelete tokens tok)) := by
  refine ⟨?_, ?_, ?_, ?_, ?_, ?_, ?_⟩
  · intro tp htp
    simp [validateUpgradeToken, htp]
  · intro tok htok hnone
    simp [validateUpgradeToken, strOptFalsy, htok, hnone]
  · intro tok s htok hsome hexp
    simp [validateUpgradeToken, strOptFalsy, htok, hsome, hexp]
  · intro tok s htok hsome hlt hip
    simp [validateUpgradeToken, strOptFalsy, htok, hsome, not_le.mpr hlt, hip]
  · intro tok s o htok hsome hlt hipeq horig ho1 ho2 ho3
    subst horig
    simp [validateUpgradeToken, strOptFalsy, htok, hsome, not_le.mpr hlt,
      hipeq, ho1, ho2, ho3]
  · intro tok s htok hsome hlt hipeq hempty
    rcases originHeader with _ | o
    · simp [validateUpgradeToken, strOptFalsy, htok, hsome, not_le.mpr hlt, hipeq]
    · simp [validateUpgradeToken, strOptFalsy, htok, hsome, not_le.mpr hlt,
        hipeq, hempty]
  · intro tok s ip2 now2 htok hsome hlt hip
    refine ⟨?_, ?_⟩
    · simp [validateUpgradeToken, strOptFalsy, htok, hsome, not_le.mpr hlt, hip]
    · simp [validateUpgradeToken, strOptFalsy, htok, mapGet_mapDelete_self]

/-- Witness for C2: each reason exercised on concrete stores. -/
theorem validate_token_reason_order_witness :
    validateUpgradeToken [("tok1", ⟨"1.1.1.1", "https://a.example", 100⟩)]
        none "1.1.1.1" none 50 =
      (.rejected 401 "Missing session token",
        [("tok1", ⟨"1.1.1.1", "https://a.example", 100⟩)]) ∧
    validateUpgradeToken [("tok1", ⟨"1.1.1.1", "https://a.example", 100⟩)]
        (some "zzz") "1.1.1.1" none 50 =
      (.rejected 401 "Invalid session token",
        [("tok1", ⟨"1.1.1.1", "https://a.example", 100⟩)]) ∧
    validateUpgradeToken [("tok1", ⟨"1.1.1.1", "https://a.example", 100⟩)]
        (some "tok1") "1.1.1.1" none 100 =
      (.rejected 401 "Session token expired",
        mapDelete [("tok1", ⟨"1.1.1.1", "https://a.example", 100⟩)] "tok1") ∧
    validateUpgradeToken [("tok1", ⟨"1.1.1.1", "https://a.example", 100⟩)]
        (some "tok1") "9.9.9.9" none 50 =
      (.rejected 401 "Session token mismatch",
        mapDelete [("tok1", ⟨"1.1.1.1", "https://a.example", 100⟩)] "tok1") ∧
    validateUpgradeToken [("tok1", ⟨"1.1.1.1", "https://a.example", 100⟩)]
        (some "tok1") "1.1.1.1" (some "https://b.example") 50 =
      (.rejected 401 "Session token origin mismatch",
        mapDelete [("tok1", ⟨"1.1.1.1", "https://a.example", 100⟩)] "tok1") ∧
    validateUpgradeToken [("tok2", ⟨"2.2.2.2", "", 100⟩)]
        (some "tok2") "2.2.2.2" (some "https://b.example") 50 =
      (.accepted, [("tok2", ⟨"2.2.2.2", "", 100⟩)]) ∧
    validateUpgradeToken
        (mapDelete [("tok1", ⟨"1.1.1.1", "https://a.example", 100⟩)] "tok1")
        (some "tok1") "1.1.1.1" none 60 =
      (.rejected 401 "Invalid session token",
        mapDelete [("tok1", ⟨"1.1.1.1", "https://a.example", 100⟩)] "tok1") :=
  ⟨(validate_token_reason_order _ "1.1.1.1" none 50).1 none rfl,
    (validate_token_reason_order _ "1.1.1.1" none 50).2.1 "zzz"
      (by decide) (by decide),
    (validate_token_reason_order _ "1.1.1.1" none 100).2.2.1 "tok1"
      ⟨"1.1.1.1", "https://a.example", 100⟩ (by decide) (by decide) (by decide),
    (validate_token_reason_order _ "9.9.9.9" none 50).2.2.2.1 "tok1"
      ⟨"1.1.1.1", "https://a.example", 100⟩ (by decide) (by decide) (by decide)
      (by decide),
    (validate_token_reason_order _ "1.1.1.1" (some "https://b.example") 50).2.2.2.2.1
      "tok1" ⟨"1.1.1.1", "https://a.example", 100⟩ "https://b.example"
      (by decide) (by decide) (by decide) (by decide) rfl (by decide) (by decide)
      (by decide),
    (validate_token_reason_order _ "2.2.2.2" (some "https://b.example") 50).2.2.2.2.2.1
      "tok2" ⟨"2.2.2.2", "", 100⟩ (by decide) (by decide) (by decide) (by decide)
      (by decide),
    ((validate_token_reason_order _ "9.9.9.9" none 50).2.2.2.2.2.2 "tok1"
      ⟨"1.1.1.1", "https://a.example", 100⟩ "1.1.1.1" 60 (by decide) (by decide)
      (by decide) (by decide)).2⟩

/-- Helper: a token looked up with exactly the ip and origin it was bound
to (the issuance binding is `originHeader ?? ''`) passes validation while
unexpired, whatever the origin header was. -/
theorem validate_roundtrip {tokens : TokenStore} {tok ip : String}
    {originHeader : Option String} {e now : Int}
    (hget : mapGet tokens tok = some ⟨ip, originHeader.getD "", e⟩)
    (htok : tok ≠ "") (hlt : now < e) :
    validateUpgradeToken tokens (some tok) ip originHeader now =
      (.accepted, tokens) := by
  rcases originHeader with _ | o
  · simp [validateUpgradeToken, strOptFalsy, htok, hget, not_le.mpr hlt]
  · simp [validateUpgradeToken, strOptFalsy, htok, hget, not_le.mpr hlt]

/-- Helper: after issuance the fresh token is present in the store, bound
to the requesting ip, the origin (defaulted to the empty string), and an
expiry one TTL after issuance; the clamped TTL is positive, so the
post-insert sweep never removes the fresh entry. -/
theorem issued_token_lookup (cfg : ServerConfig) (tokens : TokenStore)
    (tok ip : String) (originHeader : Option String) (now : Int) :
    mapGet (issueSession (sessionTokenTtl cfg) tokens tok ip originHeader now).2
      tok = some ⟨ip, originHeader.getD "", now + sessionTokenTtl cfg⟩ := by
  have h5 : (5000 : Int) ≤ sessionTokenTtl cfg := le_max_left _ _
  simp only [issueSession, cleanExpiredSessionTokens]
  exact mapGet_filter _ (mapGet_mapSet_self _ _ _)
    (by simp only [decide_eq_true_eq]; omega)

/-- C1: a token issued at `t0` and bound to `(ip, origin)` passes the
channel-upgrade validation for the same ip and origin at any time
strictly before its `expiresAt`; at or after `expiresAt` the same
validation fails as expired and removes the token; and in general an
expired but not-yet-swept entry can never validate — any lookup of it
fails as expired. -/
theorem token_issue_validate_lifecycle (cfg : ServerConfig)
    (tokens : TokenStore) (tok ip : String) (originHeader : Option String)
    (t0 now : Int) (htok : tok ≠ "") :
    (now < (issueSession (sessionTokenTtl cfg) tokens tok ip originHeader t0).1 →
      validateUpgradeToken
        (issueSession (sessionTokenTtl cfg) tokens tok ip originHeader t0).2
        (some tok) ip originHeader now =
        (.accepted,
          (issueSession (sessionTokenTtl cfg) tokens tok ip originHeader t0).2)) ∧
    ((issueSession (sessionTokenTtl cfg) tokens tok ip originHeader t0).1 ≤ now →
      validateUpgradeToken
        (issueSession (sessionTokenTtl cfg) tokens tok ip originHeader t0).2
        (some tok) ip originHeader now =
        (.rejected 401 "Session token expired",
          mapDelete
            (issueSession (sessionTokenTtl cfg) tokens tok ip originHeader t0).2
            tok)) ∧
    (∀ (store : TokenStore) (t : String) (s : SessionTokenState),
      t ≠ "" → mapGet store t = some s → s.expiresAt ≤ now →
      (validateUpgradeToken store (some t) ip originHeader now).1 =
        .rejected 401 "Session token expired") := by
  have h1 : (issueSession (sessionTokenTtl cfg) tokens tok ip originHeader t0).1 =
      t0 + sessionTokenTtl cfg := rfl
  have hkeep := issued_token_lookup cfg tokens tok ip originHeader t0
  refine ⟨?_, ?_, ?_⟩
  · intro hlt
    rw [h1] at hlt
    exact validate_roundtrip hkeep htok hlt
  · intro hle
    rw [h1] at hle
    simp [validateUpgradeToken, strOptFalsy, htok, hkeep, hle]
  · intro store t s ht hsome hexp
    simp [validateUpgradeToken, strOptFalsy, ht, hsome, hexp]

/-- Witness for C1: a token issued at time 0 with the default 30000ms TTL
validates at time 10 and fails as expired at time 30000. -/
theorem token_issue_validate_lifecycle_witness :
    ("t" : String) ≠ "" ∧
    validateUpgradeToken
        (issueSession (sessionTokenTtl demoCfg) [] "t" "1.1.1.1" none 0).2
        (some "t") "1.1.1.1" none 10 =
      (.accepted, (issueSession (sessionTokenTtl demoCfg) [] "t" "1.1.1.1" none 0).2) ∧
    validateUpgradeToken
        (issueSession (sessionTokenTtl demoCfg) [] "t" "1.1.1.1" none 0).2
        (some "t") "1.1.1.1" none 30000 =
      (.rejected 401 "Session token expired",
        mapDelete (issueSession (sessionTokenTtl demoCfg) [] "t" "1.1.1.1" none 0).2 "t") :=
  ⟨by decide,
    (token_issue_validate_lifecycle demoCfg [] "t" "1.1.1.1" none 0 10
      (by decide)).1 (by decide),
    (token_issue_validate_lifecycle demoCfg [] "t" "1.1.1.1" none 0 30000
      (by decide)).2.1 (by decide)⟩

/-- C7 counterexample: issuance is not free of side effects beyond the
insertion — the handler runs the expired-token sweep right after
inserting, so an already-expired entry `"a"` disappears from the store
when `"b"` is issued, whereas insertion alone would have kept it. -/
theorem issuance_sweeps_expired_counterexample :
    mapGet [("a", (⟨"1.2.3.4", "", 1⟩ : SessionTokenState))] "a" =
      some ⟨"1.2.3.4", "", 1⟩ ∧
    mapGet (issueSession (sessionTokenTtl demoCfg)
        [("a", ⟨"1.2.3.4", "", 1⟩)] "b" "5.6.7.8" none 10).2 "a" = none ∧
    mapGet (mapSet [("a", (⟨"1.2.3.4", "", 1⟩ : SessionTokenState))] "b"
        ⟨"5.6.7.8", "", 10 + sessionTokenTtl demoCfg⟩) "a" =
      some ⟨"1.2.3.4", "", 1⟩ := by
  decide

/-- C7 (amended): issuance always succeeds; the returned `expiresAt` is
the issuance time plus `max(5000ms, configured sessionTokenTtlMs)`; the
fresh token is stored with that expiry; and the only store change beyond
the insertion is the sweep of already-expired entries (an entry is in the
post-issuance store iff it is in the post-insertion store and not yet
expired).  With `sessionTokenTtlMs = 2000` a token issued at `now` still
validates at `now+4000` and fails as expired at `now+5001`. -/
theorem issuance_properties (cfg : ServerConfig) (tokens : TokenStore)
    (tok ip : String) (originHeader : Option String) (now : Int) :
    (issueSession (sessionTokenTtl cfg) tokens tok ip originHeader now).1 =
      now + max 5000 (cfg.sessionTokenTtlMs.getD 30000) ∧
    mapGet (issueSession (sessionTokenTtl cfg) tokens tok ip originHeader now).2
        tok = some ⟨ip, originHeader.getD "", now + sessionTokenTtl cfg⟩ ∧
    (∀ t s, (t, s) ∈
        (issueSession (sessionTokenTtl cfg) tokens tok ip originHeader now).2 ↔
      ((t, s) ∈ mapSet tokens tok
          ⟨ip, originHeader.getD "", now + sessionTokenTtl cfg⟩ ∧
        now < s.expiresAt)) ∧
    (cfg.sessionTokenTtlMs = some 2000 → tok ≠ "" →
      ((issueSession (sessionTokenTtl cfg) tokens tok ip originHeader now).1 =
          now + 5000 ∧
       (validateUpgradeToken
          (issueSession (sessionTokenTtl cfg) tokens tok ip originHeader now).2
          (some tok) ip originHeader (now + 4000)).1 = .accepted ∧
       (validateUpgradeToken
          (issueSession (sessionTokenTtl cfg) tokens tok ip originHeader now).2
          (some tok) ip originHeader (now + 5001)).1 =
         .rejected 401 "Session token expired")) := by
  refine ⟨rfl, issued_token_lookup cfg tokens tok ip originHeader now, ?_, ?_⟩
  · intro t s
    simp only [issueSession, cleanExpiredSessionTokens]
    rw [List.mem_filter]
    simp
  · intro h2000 htok
    have httl : sessionTokenTtl cfg = 5000 := by simp [sessionTokenTtl, h2000]
    have hkeep := issued_token_lookup cfg tokens tok ip originHeader now
    rw [httl] at hkeep
    refine ⟨?_, ?_, ?_⟩
    · rw [show (issueSession (sessionTokenTtl cfg) tokens tok ip
          originHeader now).1 = now + sessionTokenTtl cfg from rfl, httl]
    · rw [httl]
      have hacc := validate_roundtrip hkeep htok
        (show now + 4000 < now + 5000 by omega)
      simp [hacc]
    · rw [httl]
      simp [validateUpgradeToken, strOptFalsy, htok, hkeep,
        (show (now + 5000 : Int) ≤ now + 5001 by omega)]

/-- Witness for the amended C7 with the below-floor TTL of scenario E. -/
theorem issuance_properties_witness :
    ({ demoCfg with sessionTokenTtlMs := some 2000 } : ServerConfig).sessionTokenTtlMs =
      some 2000 ∧
    ("t" : String) ≠ "" ∧
    ((issueSession (sessionTokenTtl { demoCfg with sessionTokenTtlMs := some 2000 })
        [] "t" "1.1.1.1" none 0).1 = 0 + 5000 ∧
     (validateUpgradeToken
        (issueSession (sessionTokenTtl { demoCfg with sessionTokenTtlMs := some 2000 })
          [] "t" "1.1.1.1" none 0).2
        (some "t") "1.1.1.1" none (0 + 4000)).1 = .accepted ∧
     (validateUpgradeToken
        (issueSession (sessionTokenTtl { demoCfg with sessionTokenTtlMs := some 2000 })
          [] "t" "1.1.1.1" none 0).2
        (some "t") "1.1.1.1" none (0 + 5001)).1 =
       .rejected 401 "Session token expired") :=
  ⟨rfl, by decide,
    (issuance_properties { demoCfg with sessionTokenTtlMs := some 2000 }
      [] "t" "1.1.1.1" none 0).2.2.2 rfl (by decide)⟩

/-- C3: for an upgrade attempt that passed the origin check, the global
quota is checked before the per-ip quota: at or above
`maxTotalConnections` the attempt is rejected 503 whatever the
requesting ip (and nothing changes); below it, an ip at or above
`maxConnectionsPerIp` is rejected 429; below both, admission proceeds to
the URL/token stage.  While the registry is at global capacity, every
join attempt in a row (no close occurring in between) is rejected 503 and
leaves the state unchanged. -/
theorem admission_checks_order (cfg : ServerConfig)
    (parse : String → Option URLParts) (st : ServerState)
    (req : UpgradeRequest) (now : Int) :
    (isOriginAllowed cfg parse req.originHeader = true →
      ((cfg.maxTotalConnections ≤ st.registry.clients.length →
        attemptJoin cfg parse st req now =
          (.rejected 503 "Server at capacity", st, [])) ∧
      (st.registry.clients.length < cfg.maxTotalConnections →
        (cfg.maxConnectionsPerIp : Int) ≤
          (mapGet st.registry.ipConnectionCounts (reqIp cfg req)).getD 0 →
        attemptJoin cfg parse st req now =
          (.rejected 429 "Too many connections", st, [])) ∧
      (st.registry.clients.length < cfg.maxTotalConnections →
        (mapGet st.registry.ipConnectionCounts (reqIp cfg req)).getD 0 <
          (cfg.maxConnectionsPerIp : Int) →
        handleUpgrade cfg parse st req now =
          upgradeTokenStage st.sessionTokens req (reqIp cfg req) now))) ∧
    (∀ attempts : List (UpgradeRequest × Int),
      cfg.maxTotalConnections ≤ st.registry.clients.length →
      (∀ a ∈ attempts, isOriginAllowed cfg parse (a.1).originHeader = true) →
      runAttempts cfg parse st attempts =
        (st, attempts.map (fun _ => UpgradeOutcome.rejected 503 "Server at capacity"))) := by
  constructor
  · intro hoa
    refine ⟨?_, ?_, ?_⟩
    · intro hcap
      simp [attemptJoin, handleUpgrade, hoa, ge_iff_le, hcap]
    · intro h₁ h₂
      simp [attemptJoin, handleUpgrade, hoa, ge_iff_le, not_le.mpr h₁, h₂]
    · intro h₁ h₂
      simp [handleUpgrade, hoa, ge_iff_le, not_le.mpr h₁, not_le.mpr h₂]
  · intro attempts hcap hall
    induction attempts with
    | nil => simp [runAttempts]
    | cons a rest ih =>
        obtain ⟨req₁, now₁⟩ := a
        have hoa₁ := hall (req₁, now₁) (List.mem_cons_self _ _)
        have hstep : attemptJoin cfg parse st req₁ now₁ =
            (.rejected 503 "Server at capacity", st, []) := by
          simp [attemptJoin, handleUpgrade, hoa₁, ge_iff_le, hcap]
        have ih' := ih (fun b hb => hall b (List.mem_cons_of_mem _ hb))
        simp [runAttempts, hstep, ih']

/-- Witness for C3: the full state rejects with 503 (even though the
requesting ip is also at its per-ip limit is irrelevant — this ip has no
connection), and the per-ip-saturated state rejects with 429. -/
theorem admission_checks_order_witness :
    isOriginAllowed demoCfg demoParse demoRequest.originHeader = true ∧
    demoCfg.maxTotalConnections ≤ demoStateFull.registry.clients.length ∧
    attemptJoin demoCfg demoParse demoStateFull demoRequest 0 =
      (.rejected 503 "Server at capacity", demoStateFull, []) ∧
    demoStatePerIp.registry.clients.length < demoCfg.maxTotalConnections ∧
    (demoCfg.maxConnectionsPerIp : Int) ≤
      (mapGet demoStatePerIp.registry.ipConnectionCounts
        (reqIp demoCfg demoRequest)).getD 0 ∧
    attemptJoin demoCfg demoParse demoStatePerIp demoRequest 0 =
      (.rejected 429 "Too many connections", demoStatePerIp, []) :=
  ⟨by decide, by decide,
    ((admission_checks_order demoCfg demoParse demoStateFull demoRequest 0).1
      (by decide)).1 (by decide),
    by decide, by decide,
    ((admission_checks_order demoCfg demoParse demoStatePerIp demoRequest 0).1
      (by decide)).2.1 (by decide) (by decide)⟩

/-- C5: a shape-valid payload whose timestamp strictly-equals the last
broadcast timestamp is discarded silently — state unchanged and nothing
broadcast — for EVERY content string, including content different from
the held snapshot; a payload with any other timestamp updates the last
timestamp, replaces the held snapshot with the raw content, and hands
that content to the broadcast, which delivers it to every open
connection. -/
theorem poll_dedup_by_timestamp (st : ServerState) (content : String)
    (v : JSValue) (hvalid : isValidBroadcastPayload v = true) :
    (jsStrictEqNum (payloadTimestamp v) st.lastTimestamp = true →
      pollStateFile (some (content, some v)) st = (st, none)) ∧
    (jsStrictEqNum (payloadTimestamp v) st.lastTimestamp = false →
      pollStateFile (some (content, some v)) st =
        ({ st with lastTimestamp := payloadTimestamp v, lastState := content },
          some content)) ∧
    (∀ (openSocket : Nat → Bool) (id : Nat) (c : ClientConnection),
      (id, c) ∈ st.registry.clients → openSocket id = true →
      (id, content) ∈ broadcastToClients openSocket st.registry.clients content) := by
  refine ⟨?_, ?_, ?_⟩
  · intro heq
    simp [pollStateFile, hvalid, heq]
  · intro hne
    simp [pollStateFile, hvalid, hne]
  · intro openSocket id c hmem hopen
    exact List.mem_map.mpr ⟨(id, c), List.mem_filter.mpr ⟨hmem, hopen⟩, rfl⟩

/-- Witness for C5, mirroring scenario C: at last timestamp 100 the
payload with timestamp 100 but different instance content is not
broadcast; from last timestamp 0 the timestamp-100 payload is broadcast
and stored. -/
theorem poll_dedup_by_timestamp_witness :
    isValidBroadcastPayload demoPayloadB = true ∧
    pollStateFile (some ("contentB", some demoPayloadB))
        { demoState0 with lastTimestamp := .finite 100 } =
      ({ demoState0 with lastTimestamp := .finite 100 }, none) ∧
    isValidBroadcastPayload demoPayload = true ∧
    pollStateFile (some ("contentA", some demoPayload)) demoState0 =
      ({ demoState0 with
          lastTimestamp := payloadTimestamp demoPayload,
          lastState := "contentA" }, some "contentA") :=
  ⟨by decide,
    (poll_dedup_by_timestamp { demoState0 with lastTimestamp := .finite 100 }
      "contentB" demoPayloadB (by decide)).1 (by decide),
    by decide,
    (poll_dedup_by_timestamp demoState0 "contentA" demoPayload
      (by decide)).2.1 (by decide)⟩

/-- C8: the connection handler sends exactly one welcome message,
immediately followed by the current snapshot payload, and the
registration of the connection (both map updates) happens strictly
before the two best-effort sends, so no send outcome can undo it; the
registry update itself is unconditional.  (The hypothesis rules out the
degenerate coincidence of the held snapshot string being byte-identical
to the welcome message, which never occurs for state-typed snapshots.) -/
theorem welcome_then_snapshot_on_join (cfg : ServerConfig) (st : ServerState)
    (id : Nat) (ip : String) (now : Int)
    (hne : st.lastState ≠ welcomeJson cfg) :
    ((onConnection cfg st id ip now).2.countP
      (fun e => decide (e = ServerEffect.send (welcomeJson cfg))) = 1) ∧
    (∃ pre post, (onConnection cfg st id ip now).2 =
        pre ++ ServerEffect.send (welcomeJson cfg) ::
          ServerEffect.send st.lastState :: post ∧
      (∀ e ∈ pre, ∀ s, e ≠ ServerEffect.send s) ∧
      (∀ e ∈ post, ∀ s, e ≠ ServerEffect.send s) ∧
      ServerEffect.setClient id ip ∈ pre) ∧
    (onConnection cfg st id ip now).1.registry =
      registerConn st.registry id ip now := by
  refine ⟨?_, ?_, rfl⟩
  · simp [onConnection, List.countP_cons, hne]
  · refine ⟨[ServerEffect.setClient id ip, ServerEffect.incIpCount ip,
      ServerEffect.log ("Client connected: " ++ ip ++ " (total: " ++
        toString (registerConn st.registry id ip now).clients.length ++ ")")],
      [], rfl, ?_, ?_, ?_⟩
    · intro e he s
      rcases he with _ | ⟨_, he⟩
      · simp
      · rcases he with _ | ⟨_, he⟩
        · simp
        · rcases he with _ | ⟨_, he⟩
          · simp
          · cases he
    · intro e he s
      cases he
    · exact List.mem_cons_self _ _

/-- Witness for C8 at a concrete connection. -/
theorem welcome_then_snapshot_on_join_witness :
    demoState0.lastState ≠ welcomeJson demoCfg ∧
    (onConnection demoCfg demoState0 7 "9.9.9.9" 0).2.countP
      (fun e => decide (e = ServerEffect.send (welcomeJson demoCfg))) = 1 ∧
    (onConnection demoCfg demoState0 7 "9.9.9.9" 0).1.registry =
      registerConn demoState0.registry 7 "9.9.9.9" 0 :=
  ⟨by decide,
    (welcome_then_snapshot_on_join demoCfg demoState0 7 "9.9.9.9" 0
      (by decide)).1,
    (welcome_then_snapshot_on_join demoCfg demoState0 7 "9.9.9.9" 0
      (by decide)).2.2⟩

end GWB
